import Mathlib

/-!
A shallow embedding of the quiz-attempt state machine and scoring engine of
the Skillora backend (`backend/quizzes/models.py` and
`backend/quizzes/views.py`).

Modelling conventions:
* timestamps are seconds since an arbitrary epoch, as `Nat`; Python's
  `timezone.timedelta(minutes=t)` becomes `60 * t` seconds;
* Python floats (`score_percentage`) are modelled as rationals `ℚ`;
* Django querysets restricted to a fixed `(quiz, student)` pair are plain
  lists, kept in query order;
* Django model-instance equality (`__eq__` compares primary keys) is the
  `BEq` instance comparing `id` fields;
* the JSON `quiz_settings` dict is an association list from key strings to
  booleans, so that which keys are present is part of the model;
* fallible operations (`raise ValueError`, HTTP 400/404 responses) return
  `Except`.
-/

namespace Skillora

/-- Question types, from `Question.QUESTION_TYPES` in `models.py`. -/
inductive QuestionType where
  | multipleChoice
  | trueFalse
  | shortAnswer
  | essay
  | fillBlank
  | matching
  | ordering
  deriving DecidableEq, Repr

/-- Attempt statuses, from `QuizAttempt.STATUS_CHOICES` in `models.py`. -/
inductive AttemptStatus where
  | notStarted
  | inProgress
  | completed
  | abandoned
  | timeExpired
  deriving DecidableEq, Repr

instance : BEq AttemptStatus := ⟨fun a b => decide (a = b)⟩

/-- An `Answer` row: answer choice of a question (`models.Answer`). -/
structure Answer where
  id : Nat
  answerText : String
  isCorrect : Bool
  matchOrder : Option Nat
  order : Nat
  deriving DecidableEq, Repr

/-- Django compares model instances by primary key. -/
instance : BEq Answer := ⟨fun a b => a.id == b.id⟩

/-- A `Question` row together with its `answers` reverse relation
(`models.Question`). -/
structure Question where
  questionType : QuestionType
  points : Nat
  order : Nat
  answers : List Answer
  deriving DecidableEq, Repr

/-- A `Quiz` row together with its `questions` reverse relation
(`models.Quiz`).  Field defaults below in `baseQuiz` mirror the Django field
defaults. -/
structure Quiz where
  timeLimitMinutes : Option Nat
  maxAttempts : Nat
  passingScore : Nat
  totalPoints : Nat
  availableFrom : Option Nat
  availableUntil : Option Nat
  isActive : Bool
  shuffleQuestions : Bool
  shuffleAnswers : Bool
  showCorrectAnswers : Bool
  showScoreImmediately : Bool
  allowReview : Bool
  requireCompletion : Bool
  questions : List Question
  deriving DecidableEq, Repr

/-- A quiz with every field at its Django-declared default. -/
def baseQuiz : Quiz :=
  { timeLimitMinutes := none
    maxAttempts := 1
    passingScore := 70
    totalPoints := 0
    availableFrom := none
    availableUntil := none
    isActive := true
    shuffleQuestions := false
    shuffleAnswers := false
    showCorrectAnswers := true
    showScoreImmediately := true
    allowReview := true
    requireCompletion := false
    questions := [] }

/-- `Quiz.is_available` (models.py:95-103): inside the availability window
and active. -/
def Quiz.is_available (q : Quiz) (now : Nat) : Bool :=
  match q.availableFrom with
  | some f => if now < f then false else
      match q.availableUntil with
      | some u => if now > u then false else q.isActive
      | none => q.isActive
  | none =>
      match q.availableUntil with
      | some u => if now > u then false else q.isActive
      | none => q.isActive

/-- A `QuizAttempt` row (`models.QuizAttempt`). -/
structure QuizAttempt where
  attemptNumber : Nat
  status : AttemptStatus
  scorePoints : Nat
  scorePercentage : ℚ
  passed : Bool
  timeLimitMinutes : Option Nat
  timeSpentSeconds : Nat
  startedAt : Option Nat
  completedAt : Option Nat
  expiresAt : Option Nat
  quizSettings : List (String × Bool)
  deriving DecidableEq, Repr

/-- An attempt row as freshly created by `QuizAttempt.objects.create` with
only `attempt_number` supplied: every other field at its Django default. -/
def newAttempt (n : Nat) : QuizAttempt :=
  { attemptNumber := n
    status := .notStarted
    scorePoints := 0
    scorePercentage := 0
    passed := false
    timeLimitMinutes := none
    timeSpentSeconds := 0
    startedAt := none
    completedAt := none
    expiresAt := none
    quizSettings := [] }

/-- `QuizAttempt.is_expired` (models.py:337-340):
`self.expires_at and timezone.now() > self.expires_at`. -/
def QuizAttempt.is_expired (a : QuizAttempt) (now : Nat) : Bool :=
  match a.expiresAt with
  | some e => now > e
  | none => false

/-- A `QuestionResponse` row (`models.QuestionResponse`) with its foreign
key to `Question` dereferenced.  `response_data` carries, depending on the
question type, a matching dict (`matchResponse`) or an ordered id list
(`orderResponse`). -/
structure QuestionResponse where
  question : Question
  selectedAnswers : List Answer
  textResponse : String
  matchResponse : List (Nat × Option Nat)
  orderResponse : List Nat
  isCorrect : Bool
  pointsEarned : Nat
  deriving DecidableEq, Repr

/-- The accumulation loop of `QuizAttempt.calculate_score`
(models.py:320-326): one pass over `self.responses.all()`, summing
`response.question.points` into `total_points` and, when
`response.is_correct`, also into `earned_points`.  Returns
`(total_points, earned_points)`. -/
def scoreSums (rs : List QuestionResponse) : Nat × Nat :=
  rs.foldl
    (fun acc r =>
      (acc.1 + r.question.points,
       if r.isCorrect then acc.2 + r.question.points else acc.2))
    (0, 0)

/-- `QuizAttempt.calculate_score` (models.py:318-335).  Needs the parent
quiz (for `passing_score`) and the attempt's responses. -/
def calculate_score (quiz : Quiz) (rs : List QuestionResponse)
    (a : QuizAttempt) : QuizAttempt :=
  let sums := scoreSums rs
  let totalPoints := sums.1
  let earnedPoints := sums.2
  let pctg : ℚ :=
    if totalPoints > 0 then ((earnedPoints : ℚ) / (totalPoints : ℚ)) * 100
    else 0
  { a with
    scorePoints := earnedPoints
    scorePercentage := pctg
    passed := decide (pctg ≥ (quiz.passingScore : ℚ)) }

/-- `QuizAttempt.complete_attempt` (models.py:303-316).  `now` is
`timezone.now()`. -/
def complete_attempt (quiz : Quiz) (rs : List QuestionResponse) (now : Nat)
    (a : QuizAttempt) : Except String QuizAttempt :=
  if a.status = .inProgress ∨ a.status = .timeExpired then
    let a := { a with status := .completed, completedAt := some now }
    let a :=
      match a.startedAt with
      | some s => { a with timeSpentSeconds := now - s }
      | none => a
    .ok (calculate_score quiz rs a)
  else
    .error "Cannot complete attempt in current status"

/-- The `quiz_settings` snapshot taken by `QuizAttempt.start_attempt`
(models.py:292-299): exactly the five keys the code copies. -/
def settingsSnapshot (quiz : Quiz) : List (String × Bool) :=
  [("shuffle_questions", quiz.shuffleQuestions),
   ("shuffle_answers", quiz.shuffleAnswers),
   ("show_correct_answers", quiz.showCorrectAnswers),
   ("show_score_immediately", quiz.showScoreImmediately),
   ("allow_review", quiz.allowReview)]

/-- `QuizAttempt.start_attempt` (models.py:279-301).  The Python guard
`if self.quiz.time_limit_minutes:` is falsy both for `None` and for `0`. -/
def start_attempt (quiz : Quiz) (now : Nat) (a : QuizAttempt) :
    Except String QuizAttempt :=
  if a.status ≠ .notStarted then
    .error "Attempt already started"
  else
    let a := { a with status := .inProgress, startedAt := some now }
    let a :=
      match quiz.timeLimitMinutes with
      | some t =>
          if t = 0 then a
          else { a with
                 timeLimitMinutes := some t
                 expiresAt := some (now + 60 * t) }
      | none => a
    .ok { a with quizSettings := settingsSnapshot quiz }

/-- Failure kinds of the request handlers in `views.py`:
`notFound` models a `get_object_or_404` miss (HTTP 404), `validation`
models a `Response({'error': ...}, status=400)` (HTTP 400). -/
inductive StartError where
  | notFound (what : String)
  | validation (msg : String)
  deriving DecidableEq, Repr

/-- The state `start_quiz_attempt` reads and writes for one
`(quiz, student)` pair: whether an `active` enrollment of the student in
the quiz's course exists, and the stored attempts of that pair, in query
order. -/
structure AttemptStore where
  enrolledActive : Bool
  attempts : List QuizAttempt
  deriving Repr

/-- The expiry transition inside `start_quiz_attempt` (views.py:195-199):
the one in-progress attempt found by the query has its status forced to
`time_expired` and is saved. -/
def expireFirstInProgress : List QuizAttempt → List QuizAttempt
  | [] => []
  | a :: rest =>
      if a.status = .inProgress then { a with status := .timeExpired } :: rest
      else a :: expireFirstInProgress rest

/-- `start_quiz_attempt` (views.py:153-218).  Returns the handler's
response (the resumed or created attempt, or an error) paired with the
stored attempt list after the call. -/
def start_quiz_attempt (quiz : Quiz) (now : Nat) (st : AttemptStore) :
    Except StartError QuizAttempt × List QuizAttempt :=
  if ¬ st.enrolledActive then
    (.error (.notFound "enrollment"), st.attempts)
  else if ¬ quiz.is_available now then
    (.error (.validation "Quiz is not currently available"), st.attempts)
  else
    let existing := st.attempts.length
    if existing ≥ quiz.maxAttempts then
      (.error (.validation
        ("Maximum attempts (" ++ toString quiz.maxAttempts ++ ") reached")),
       st.attempts)
    else
      match st.attempts.find? (fun a => a.status == .inProgress) with
      | some ip =>
          if ip.is_expired now then
            let updatedAttempts := expireFirstInProgress st.attempts
            match start_attempt quiz now (newAttempt (existing + 1)) with
            | .ok a => (.ok a, updatedAttempts ++ [a])
            | .error e => (.error (.validation e), updatedAttempts)
          else
            (.ok ip, st.attempts)
      | none =>
          match start_attempt quiz now (newAttempt (existing + 1)) with
          | .ok a => (.ok a, st.attempts ++ [a])
          | .error e => (.error (.validation e), st.attempts)

/-- `grade_essay_response` (views.py:390-431), restricted to one attempt:
`rs` are the attempt's responses, `i` indexes the response being graded
(the `get_object_or_404` lookup, which filters on
`question__question_type='essay'` but not on the attempt's status),
`pointsGiven` is `request.data['points_earned']`.  On success returns the
updated attempt (score recalculated and saved) and the updated response
list. -/
def grade_essay_response (quiz : Quiz) (a : QuizAttempt)
    (rs : List QuestionResponse) (i : Nat) (pointsGiven : Int) :
    Except StartError (QuizAttempt × List QuestionResponse) :=
  match rs.get? i with
  | none => .error (.notFound "response")
  | some r =>
      if r.question.questionType ≠ .essay then
        .error (.notFound "response")
      else if pointsGiven < 0 ∨ pointsGiven > (r.question.points : Int) then
        .error (.validation
          ("Points must be between 0 and " ++ toString r.question.points))
      else
        let r := { r with
                   pointsEarned := pointsGiven.toNat
                   isCorrect := pointsGiven = (r.question.points : Int) }
        let rs := rs.set i r
        .ok (calculate_score quiz rs a, rs)

/-- `Quiz.calculate_total_points` (models.py:110-115):
`total = sum(q.points for q in self.questions.all())`. -/
def calculate_total_points (quiz : Quiz) : Quiz :=
  { quiz with totalPoints := (quiz.questions.map (fun q => q.points)).sum }

/-- The auto-order assignment at the top of `Question.save`
(models.py:166-169): when `order == 0`, take the largest existing order
(`order_by('-order').first()`) plus one, or `1` when the quiz has no
questions. -/
def assignOrder (existing : List Question) (q : Question) : Question :=
  if q.order = 0 then
    match (existing.map (fun p => p.order)).max? with
    | some m => { q with order := m + 1 }
    | none => { q with order := 1 }
  else q

/-- `Question.save` on a new question (models.py:165-174): auto-assign
order, insert the row, then `self.quiz.calculate_total_points()`. -/
def question_save_new (quiz : Quiz) (q : Question) : Quiz :=
  let q := assignOrder quiz.questions q
  calculate_total_points { quiz with questions := quiz.questions ++ [q] }

/-- `Question.save` on an existing question (models.py:165-174): the row
at index `i` is replaced, then `self.quiz.calculate_total_points()`. -/
def question_save_update (quiz : Quiz) (i : Nat) (q : Question) : Quiz :=
  let q := assignOrder quiz.questions q
  calculate_total_points { quiz with questions := quiz.questions.set i q }

/-- Deleting a question (`QuestionDetailView`, views.py:93-104, which uses
the stock destroy behaviour): the row is removed and nothing recomputes
`total_points` — the `Question` model overrides `save` but not `delete`. -/
def question_delete (quiz : Quiz) (i : Nat) : Quiz :=
  { quiz with questions := quiz.questions.eraseIdx i }

/-- Python set equality on two lists of Django model instances (hashing
and equality are by primary key). -/
def setEqAnswers (xs ys : List Answer) : Bool :=
  xs.all (fun x => ys.contains x) && ys.all (fun y => xs.contains y)

/-- Python dict equality on two association lists with `Nat` keys:
equal as finite maps. -/
def dictEqNat (xs ys : List (Nat × Option Nat)) : Bool :=
  xs.all (fun kv => ys.lookup kv.1 == some kv.2) &&
  ys.all (fun kv => xs.lookup kv.1 == some kv.2)

/-- `order_by('match_order')` on a question's answers: insertion sort on
`match_order` (rows with `NULL` sort last, the database default for
ascending order). -/
def matchOrderKey (a : Answer) : Nat × Nat :=
  match a.matchOrder with
  | some m => (0, m)
  | none => (1, 0)

def insertByMatchOrder (a : Answer) : List Answer → List Answer
  | [] => [a]
  | b :: rest =>
      if matchOrderKey a ≤ matchOrderKey b then a :: b :: rest
      else b :: insertByMatchOrder a rest

def sortByMatchOrder : List Answer → List Answer
  | [] => []
  | a :: rest => insertByMatchOrder a (sortByMatchOrder rest)

/-- `QuestionResponse.evaluate_response` (models.py:387-434). -/
def evaluate_response (r : QuestionResponse) : QuestionResponse :=
  let q := r.question
  let r :=
    match q.questionType with
    | .multipleChoice =>
        let correctAnswers := q.answers.filter (fun (a : Answer) => a.isCorrect)
        { r with isCorrect := setEqAnswers correctAnswers r.selectedAnswers }
    | .trueFalse =>
        let correctAnswer := (q.answers.filter (fun (a : Answer) => a.isCorrect)).head?
        let selectedAnswer := r.selectedAnswers.head?
        { r with isCorrect := correctAnswer == selectedAnswer }
    | .shortAnswer | .fillBlank =>
        let correctAnswers := q.answers.filter (fun (a : Answer) => a.isCorrect)
        let userAnswer := r.textResponse.trim.toLower
        let ok := correctAnswers.any
          (fun (a : Answer) => a.answerText.trim.toLower == userAnswer)
        { r with isCorrect := ok }
    | .essay =>
        { r with isCorrect := false }
    | .matching =>
        let correctMatches :=
          q.answers.map (fun (a : Answer) => (a.id, a.matchOrder))
        { r with isCorrect := dictEqNat r.matchResponse correctMatches }
    | .ordering =>
        let correctOrder := (sortByMatchOrder q.answers).map (fun (a : Answer) => a.id)
        { r with isCorrect := decide (correctOrder = r.orderResponse) }
  { r with pointsEarned := if r.isCorrect then q.points else 0 }

/-!
Specification-side score aggregates, written the way the spec phrases them
("sums ... across all Responses belonging to the attempt"), to be related
to the single-pass loop `scoreSums` of the code.
-/

/-- Sum of `question.points` across a list of responses. -/
def totalOf (rs : List QuestionResponse) : Nat :=
  (rs.map (fun r => r.question.points)).sum

/-- Sum of `question.points` across the responses marked correct. -/
def earnedOf (rs : List QuestionResponse) : Nat :=
  ((rs.filter (fun r => r.isCorrect)).map (fun r => r.question.points)).sum

/-- Sum of `points_earned` across a list of responses — what claim C1
says `score_points` is set to. -/
def earnedFieldOf (rs : List QuestionResponse) : Nat :=
  (rs.map (fun r => r.pointsEarned)).sum

/-- The percentage the spec describes: `earned/total*100`, `0` when the
total is `0`. -/
def pctOf (rs : List QuestionResponse) : ℚ :=
  if totalOf rs > 0 then ((earnedOf rs : ℚ) / (totalOf rs : ℚ)) * 100 else 0

/-- The fields the spec prescribes for a freshly created-and-started
attempt: next attempt number, `in_progress`, `started_at = now`,
`expires_at = started_at + 60 * time_limit` exactly for a nonzero time
limit, and the settings snapshot. -/
def FreshAttempt (quiz : Quiz) (now : Nat) (n : Nat) (na : QuizAttempt) : Prop :=
  na.attemptNumber = n ∧
  na.status = .inProgress ∧
  na.startedAt = some now ∧
  (∀ t, quiz.timeLimitMinutes = some t → t ≠ 0 →
    na.expiresAt = some (now + 60 * t)) ∧
  (quiz.timeLimitMinutes = none ∨ quiz.timeLimitMinutes = some 0 →
    na.expiresAt = none) ∧
  na.quizSettings = settingsSnapshot quiz

/-- Whether a handler outcome is a validation-kind failure (HTTP 400). -/
def isValidationFailure : Except StartError QuizAttempt → Bool
  | .error (.validation _) => true
  | _ => false

/-!
Concrete instances used by counterexamples and witnesses.
-/

/-- A response carrying only what `calculate_score` reads: the question's
point value and the stored `is_correct` flag (with `points_earned` as
`evaluate_response` would leave it). -/
def mkScoredResponse (pts : Nat) (ok : Bool) : QuestionResponse :=
  { question := { questionType := .multipleChoice, points := pts, order := 1, answers := [] }
    selectedAnswers := []
    textResponse := ""
    matchResponse := []
    orderResponse := []
    isCorrect := ok
    pointsEarned := if ok then pts else 0 }

/-- Responses realising a score of exactly 69.999%: 69999 of 100000
points earned. -/
def c2Responses : List QuestionResponse :=
  [mkScoredResponse 69999 true, mkScoredResponse 30001 false]

/-- An essay question worth 5 points. -/
def essayQ5 : Question :=
  { questionType := .essay, points := 5, order := 1, answers := [] }

/-- An essay response as `evaluate_response` leaves it before manual
grading: not correct, zero points. -/
def essayResponse0 : QuestionResponse :=
  { question := essayQ5
    selectedAnswers := []
    textResponse := "my essay"
    matchResponse := []
    orderResponse := []
    isCorrect := false
    pointsEarned := 0 }

/-- An in-progress attempt, as left by `start_attempt` on `baseQuiz` at
time 100. -/
def runningAttempt : QuizAttempt :=
  { newAttempt 1 with
    status := .inProgress
    startedAt := some 100
    quizSettings := settingsSnapshot baseQuiz }

/-- A completed attempt whose only response is the ungraded
`essayResponse0`: zero points, zero percent, not passed. -/
def completedEssayAttempt : QuizAttempt :=
  { newAttempt 1 with
    status := .completed
    startedAt := some 100
    completedAt := some 400
    timeSpentSeconds := 300
    scorePoints := 0
    scorePercentage := 0
    passed := false
    quizSettings := settingsSnapshot baseQuiz }

/-- A quiz whose passing score is zero (allowed: the field's validators
are `MinValueValidator(0), MaxValueValidator(100)`). -/
def zeroPassQuiz : Quiz := { baseQuiz with passingScore := 0 }

/-- A quiz with `require_completion = True`. -/
def requireCompletionQuiz : Quiz := { baseQuiz with requireCompletion := true }

/-- The attempt produced by `start_attempt` on `requireCompletionQuiz`
at time 5. -/
def startedRC : QuizAttempt :=
  { newAttempt 1 with
    status := .inProgress
    startedAt := some 5
    quizSettings := settingsSnapshot requireCompletionQuiz }

/-- A quiz allowing two attempts. -/
def twoAttemptQuiz : Quiz := { baseQuiz with maxAttempts := 2 }

/-- Store for C5's counterexample: actively enrolled, one non-expired
in-progress attempt, and the attempt count already at `baseQuiz`'s
`max_attempts` of 1. -/
def atCapStore : AttemptStore :=
  { enrolledActive := true, attempts := [runningAttempt] }

/-- Store for C6's counterexample: the student is not actively enrolled. -/
def notEnrolledStore : AttemptStore :=
  { enrolledActive := false, attempts := [] }

/-- A 5-point multiple-choice question. -/
def mcQ5 : Question :=
  { questionType := .multipleChoice, points := 5, order := 1, answers := [] }

/-- `baseQuiz` right after `mcQ5` was saved into it: `total_points = 5`. -/
def quizWithQ5 : Quiz := question_save_new baseQuiz mcQ5

/-- A true/false question worth 3 points with no answer flagged correct. -/
def tfQuestionNoCorrect : Question :=
  { questionType := .trueFalse
    points := 3
    order := 1
    answers := [{ id := 1, answerText := "True", isCorrect := false, matchOrder := none, order := 1 },
                { id := 2, answerText := "False", isCorrect := false, matchOrder := none, order := 2 }] }

/-- A blank response to `tfQuestionNoCorrect`: nothing selected. -/
def tfBlankResponse : QuestionResponse :=
  { question := tfQuestionNoCorrect
    selectedAnswers := []
    textResponse := ""
    matchResponse := []
    orderResponse := []
    isCorrect := false
    pointsEarned := 0 }

/-!
Shared lemmas relating the code's single-pass scoring loop to the
spec-side aggregates.
-/

theorem scoreSums_loop (rs : List QuestionResponse) (t e : Nat) :
    rs.foldl
      (fun acc r =>
        (acc.1 + r.question.points,
         if r.isCorrect then acc.2 + r.question.points else acc.2))
      (t, e) = (t + totalOf rs, e + earnedOf rs) := by
  induction rs generalizing t e with
  | nil => simp [totalOf, earnedOf]
  | cons r rest ih =>
      simp only [List.foldl_cons, ih, totalOf, earnedOf, List.map_cons,
        List.sum_cons, List.filter_cons]
      by_cases hc : r.isCorrect <;> simp [hc] <;> omega

theorem scoreSums_eq (rs : List QuestionResponse) :
    scoreSums rs = (totalOf rs, earnedOf rs) := by
  simpa [scoreSums] using scoreSums_loop rs 0 0

theorem calculate_score_eq (quiz : Quiz) (rs : List QuestionResponse)
    (a : QuizAttempt) :
    calculate_score quiz rs a =
      { a with
        scorePoints := earnedOf rs
        scorePercentage := pctOf rs
        passed := decide (pctOf rs ≥ (quiz.passingScore : ℚ)) } := by
  simp [calculate_score, scoreSums_eq, pctOf]

/-- Claim C1, counterexample: `calculate_score` does not sum the stored
`points_earned` fields.  Grading the 5-point essay of a completed attempt
with 3 points (partial credit) leaves a response list whose
`points_earned` sum to 3, while the grading view's `calculate_score` call
stores `score_points = 0` — `calculate_score` counts `question.points` of
responses whose `is_correct` flag is set, and partial credit never sets
`is_correct`. -/
theorem C1_counterexample :
    (grade_essay_response baseQuiz completedEssayAttempt [essayResponse0] 0 3).toOption.map
        (fun p => (p.1.scorePoints, earnedFieldOf p.2))
      = some (0, 3) := by
  simp only [grade_essay_response, essayResponse0, essayQ5, calculate_score_eq]
  exact rfl

/-- Claim C1 (amended): `calculate_score` sets `score_points` to the sum
of `question.points` across the attempt's responses whose `is_correct`
flag is set (which equals the sum of `points_earned` only while no essay
has received partial credit), and sets `score_percentage` to
`earned/total*100` where `total` sums the responses' `question.points`,
with `0` when the total is `0`. -/
theorem C1_score_aggregation (quiz : Quiz) (rs : List QuestionResponse)
    (a : QuizAttempt) :
    (calculate_score quiz rs a).scorePoints = earnedOf rs ∧
    (calculate_score quiz rs a).scorePercentage = pctOf rs := by
  simp [calculate_score_eq]

/-- Claim C2 (confirmed): `passed` is exactly the strict, unrounded
comparison `score_percentage ≥ passing_score`; with `passing_score = 70`
and a score of `69.999%`, `passed` is false. -/
theorem C2_passed_strict (quiz : Quiz) (rs : List QuestionResponse)
    (a : QuizAttempt) :
    ((calculate_score quiz rs a).passed = true ↔
       (calculate_score quiz rs a).scorePercentage ≥ (quiz.passingScore : ℚ)) ∧
    (quiz.passingScore = 70 →
      (calculate_score quiz rs a).scorePercentage = 69999 / 1000 →
      (calculate_score quiz rs a).passed = false) := by
  refine ⟨by simp [calculate_score_eq], ?_⟩
  intro h70 hp
  have hpct : pctOf rs = 69999 / 1000 := by
    simpa [calculate_score_eq] using hp
  simp only [calculate_score_eq, hpct, h70]
  norm_num

/-- Witness for C2: a concrete attempt scoring 69999 of 100000 points
(69.999%) against the default passing score of 70 does not pass. -/
theorem C2_witness :
    (calculate_score baseQuiz c2Responses (newAttempt 1)).passed = false :=
  (C2_passed_strict baseQuiz c2Responses (newAttempt 1)).2 rfl
    (by norm_num [calculate_score_eq, pctOf, totalOf, earnedOf, c2Responses,
      mkScoredResponse])

/-- On a completable status, `complete_attempt` succeeds and its result
is the score recalculation of the attempt with its completion fields
set. -/
theorem complete_attempt_ok (quiz : Quiz) (rs : List QuestionResponse)
    (now : Nat) (a : QuizAttempt)
    (h : a.status = .inProgress ∨ a.status = .timeExpired) :
    complete_attempt quiz rs now a =
      .ok (calculate_score quiz rs
        { a with
          status := .completed
          completedAt := some now
          timeSpentSeconds :=
            match a.startedAt with
            | some s => now - s
            | none => a.timeSpentSeconds }) := by
  cases hs : a.startedAt <;> simp [complete_attempt, h, hs]

/-- Claim C3, counterexample: completing an attempt with zero responses
does succeed with `score_percentage = 0`, but `passed` is not false
"regardless of the quiz's passing_score": with `passing_score = 0`
(permitted by the field's validators), `passed = (0 ≥ 0) = true`. -/
theorem C3_counterexample :
    (complete_attempt zeroPassQuiz [] 200 runningAttempt).toOption.map
        (fun a => (a.scorePercentage, a.passed))
      = some (0, true) := by
  simp only [complete_attempt, runningAttempt, calculate_score_eq]
  norm_num [pctOf, totalOf, earnedOf, newAttempt, zeroPassQuiz, baseQuiz,
    Except.toOption]

/-- Claim C3 (amended): completing an in-progress attempt with zero
responses succeeds (no division error), stores `score_percentage = 0`,
and `passed = (0 ≥ passing_score)` — false for every positive
passing score, true only in the degenerate `passing_score = 0` case. -/
theorem C3_zero_responses (quiz : Quiz) (now : Nat) (a : QuizAttempt)
    (h : a.status = .inProgress) :
    ∃ r, complete_attempt quiz [] now a = .ok r ∧
      r.scorePercentage = 0 ∧
      r.passed = decide ((0 : ℚ) ≥ (quiz.passingScore : ℚ)) ∧
      (0 < quiz.passingScore → r.passed = false) := by
  refine ⟨_, complete_attempt_ok quiz [] now a (Or.inl h), ?_, ?_, ?_⟩
  · simp [calculate_score_eq, pctOf, totalOf]
  · simp [calculate_score_eq, pctOf, totalOf, earnedOf]
  · intro hpos
    simp only [calculate_score_eq, pctOf, totalOf, earnedOf, List.map_nil,
      List.sum_nil, List.filter_nil, gt_iff_lt, lt_self_iff_false,
      if_false, decide_eq_false_iff_not, not_le, ge_iff_le]
    exact_mod_cast hpos

/-- Witness for C3: completing an empty in-progress attempt against the
default quiz (passing score 70) yields `passed = false`. -/
theorem C3_witness :
    ∃ r, complete_attempt baseQuiz [] 200 runningAttempt = .ok r ∧
      r.scorePercentage = 0 ∧
      r.passed = decide ((0 : ℚ) ≥ ((baseQuiz.passingScore : Nat) : ℚ)) ∧
      (0 < baseQuiz.passingScore → r.passed = false) :=
  C3_zero_responses baseQuiz 200 runningAttempt rfl

/-- Claim C4 (confirmed): `complete_attempt` succeeds exactly from
`in_progress` or `time_expired`; on success the result is `completed`,
`completed_at = now`, `time_spent_seconds` is derived from `started_at`,
and the score fields are the §4.2 aggregation; from any other status it
fails with the invalid-state `ValueError`. -/
theorem C4_complete_lifecycle (quiz : Quiz) (rs : List QuestionResponse)
    (now : Nat) (a : QuizAttempt) :
    ((a.status = .inProgress ∨ a.status = .timeExpired) →
      ∃ r, complete_attempt quiz rs now a = .ok r ∧
        r.status = .completed ∧
        r.completedAt = some now ∧
        (∀ s, a.startedAt = some s → r.timeSpentSeconds = now - s) ∧
        r.scorePoints = earnedOf rs ∧
        r.scorePercentage = pctOf rs ∧
        (r.passed = true ↔ pctOf rs ≥ (quiz.passingScore : ℚ))) ∧
    (a.status ≠ .inProgress ∧ a.status ≠ .timeExpired →
      complete_attempt quiz rs now a =
        .error "Cannot complete attempt in current status") := by
  constructor
  · intro h
    refine ⟨_, complete_attempt_ok quiz rs now a h, ?_, ?_, ?_, ?_, ?_, ?_⟩
    · simp [calculate_score_eq]
    · simp [calculate_score_eq]
    · intro s hs
      simp [calculate_score_eq, hs]
    · simp [calculate_score_eq]
    · simp [calculate_score_eq]
    · simp [calculate_score_eq]
  · intro ⟨h1, h2⟩
    simp [complete_attempt, h1, h2]

/-- Witness for C4: completing the concrete in-progress attempt started
at time 100, at time 200, succeeds with the stated fields. -/
theorem C4_witness :
    ∃ r, complete_attempt baseQuiz [] 200 runningAttempt = .ok r ∧
      r.status = .completed ∧
      r.completedAt = some 200 ∧
      (∀ s, runningAttempt.startedAt = some s → r.timeSpentSeconds = 200 - s) ∧
      r.scorePoints = earnedOf [] ∧
      r.scorePercentage = pctOf [] ∧
      (r.passed = true ↔ pctOf [] ≥ ((baseQuiz.passingScore : Nat) : ℚ)) :=
  (C4_complete_lifecycle baseQuiz [] 200 runningAttempt).1 (Or.inl rfl)

/-- `start_attempt` on a not-yet-started attempt succeeds, and the result
is the attempt with the start fields set. -/
theorem start_attempt_ok (quiz : Quiz) (now : Nat) (a : QuizAttempt)
    (h : a.status = .notStarted) :
    start_attempt quiz now a =
      .ok { a with
            status := .inProgress
            startedAt := some now
            timeLimitMinutes :=
              match quiz.timeLimitMinutes with
              | some t => if t = 0 then a.timeLimitMinutes else some t
              | none => a.timeLimitMinutes
            expiresAt :=
              match quiz.timeLimitMinutes with
              | some t => if t = 0 then a.expiresAt else some (now + 60 * t)
              | none => a.expiresAt
            quizSettings := settingsSnapshot quiz } := by
  cases ht : quiz.timeLimitMinutes with
  | none => simp [start_attempt, h, ht]
  | some t => by_cases h0 : t = 0 <;> simp [start_attempt, h, ht, h0]

/-- `start_attempt` applied to a freshly created attempt row yields an
attempt with exactly the fields the spec prescribes. -/
theorem start_attempt_fresh (quiz : Quiz) (now n : Nat) :
    ∃ na, start_attempt quiz now (newAttempt n) = .ok na ∧
      FreshAttempt quiz now n na := by
  refine ⟨_, start_attempt_ok quiz now (newAttempt n) rfl, ?_⟩
  cases ht : quiz.timeLimitMinutes with
  | none => simp [FreshAttempt, newAttempt, ht]
  | some t => by_cases h0 : t = 0 <;> simp [FreshAttempt, newAttempt, ht, h0]

/-- Claim C5, counterexample: an in-progress, non-expired attempt exists
for the pair, yet `start` does not return it — the view checks the
attempt-count cap before the resume branch, so at `max_attempts = 1`
with one (in-progress) attempt stored it fails instead of resuming. -/
theorem C5_counterexample :
    runningAttempt.status = .inProgress ∧
    runningAttempt.is_expired 200 = false ∧
    (start_quiz_attempt baseQuiz 200 atCapStore).1 =
      .error (.validation "Maximum attempts (1) reached") ∧
    (start_quiz_attempt baseQuiz 200 atCapStore).2 = atCapStore.attempts :=
  ⟨rfl, rfl, rfl, rfl⟩

/-- Claim C5 (amended): provided the preconditions pass (actively
enrolled, quiz available, attempt count below `max_attempts` — the code
checks the cap before the resume branch, see the counterexample), start
resumes a non-expired in-progress attempt unchanged; an expired
in-progress attempt is transitioned to `time_expired` and a fresh
attempt is created; otherwise a fresh attempt is created — with the next
`attempt_number`, `status = in_progress`, `started_at = now`,
`expires_at = started_at + time limit` exactly when the quiz has a
nonzero `time_limit_minutes`, and the settings snapshot. -/
theorem C5_start_resume_or_create (quiz : Quiz) (now : Nat)
    (st : AttemptStore)
    (hen : st.enrolledActive = true)
    (hav : quiz.is_available now = true)
    (hcnt : st.attempts.length < quiz.maxAttempts) :
    (∀ ip, st.attempts.find? (fun a => a.status == .inProgress) = some ip →
      ip.is_expired now = false →
      start_quiz_attempt quiz now st = (.ok ip, st.attempts)) ∧
    (∀ ip, st.attempts.find? (fun a => a.status == .inProgress) = some ip →
      ip.is_expired now = true →
      ∃ na, start_quiz_attempt quiz now st =
          (.ok na, expireFirstInProgress st.attempts ++ [na]) ∧
        FreshAttempt quiz now (st.attempts.length + 1) na) ∧
    (st.attempts.find? (fun a => a.status == .inProgress) = none →
      ∃ na, start_quiz_attempt quiz now st = (.ok na, st.attempts ++ [na]) ∧
        FreshAttempt quiz now (st.attempts.length + 1) na) := by
  have hle : ¬ st.attempts.length ≥ quiz.maxAttempts := Nat.not_le.mpr hcnt
  refine ⟨?_, ?_, ?_⟩
  · intro ip hip hexp
    simp [start_quiz_attempt, hen, hav, hle, hip, hexp]
  · intro ip hip hexp
    obtain ⟨na, hna, hfresh⟩ :=
      start_attempt_fresh quiz now (st.attempts.length + 1)
    refine ⟨na, ?_, hfresh⟩
    simp [start_quiz_attempt, hen, hav, hle, hip, hexp, hna]
  · intro hnone
    obtain ⟨na, hna, hfresh⟩ :=
      start_attempt_fresh quiz now (st.attempts.length + 1)
    refine ⟨na, ?_, hfresh⟩
    simp [start_quiz_attempt, hen, hav, hle, hnone, hna]

/-- Witness for C5: the same store that fails at the cap (one running
attempt) resumes that attempt unchanged under a quiz allowing two
attempts. -/
theorem C5_witness :
    start_quiz_attempt twoAttemptQuiz 200 atCapStore =
      (.ok runningAttempt, atCapStore.attempts) :=
  (C5_start_resume_or_create twoAttemptQuiz 200 atCapStore rfl rfl
    (by decide)).1 runningAttempt rfl rfl

/-- Claim C6, counterexample: when the student is not actively enrolled,
`start` fails with the not-found kind (the `get_object_or_404` on
`Enrollment`, HTTP 404), not with a validation-kind failure. -/
theorem C6_counterexample :
    (start_quiz_attempt baseQuiz 0 notEnrolledStore).1 =
      .error (.notFound "enrollment") ∧
    isValidationFailure (start_quiz_attempt baseQuiz 0 notEnrolledStore).1 =
      false :=
  ⟨rfl, rfl⟩

/-- Claim C6 (amended): `start` fails — creating no attempt — in each of
the three precondition-violation cases, but with two different failure
kinds: not-enrolled surfaces as a not-found failure (HTTP 404 from
`get_object_or_404`), while quiz-unavailable and max-attempts-reached
surface as validation failures (HTTP 400). -/
theorem C6_start_failures (quiz : Quiz) (now : Nat) (st : AttemptStore) :
    (st.enrolledActive = false →
      start_quiz_attempt quiz now st =
        (.error (.notFound "enrollment"), st.attempts)) ∧
    (st.enrolledActive = true → quiz.is_available now = false →
      start_quiz_attempt quiz now st =
        (.error (.validation "Quiz is not currently available"),
         st.attempts)) ∧
    (st.enrolledActive = true → quiz.is_available now = true →
      st.attempts.length ≥ quiz.maxAttempts →
      start_quiz_attempt quiz now st =
        (.error (.validation
           ("Maximum attempts (" ++ toString quiz.maxAttempts ++ ") reached")),
         st.attempts)) := by
  refine ⟨?_, ?_, ?_⟩
  · intro h
    simp [start_quiz_attempt, h]
  · intro h1 h2
    simp [start_quiz_attempt, h1, h2]
  · intro h1 h2 h3
    simp [start_quiz_attempt, h1, h2, h3]

/-- Witness for C6: the not-enrolled case at a concrete store: the
failure kind is not-found and the store is unchanged. -/
theorem C6_witness :
    start_quiz_attempt baseQuiz 0 notEnrolledStore =
      (.error (.notFound "enrollment"), notEnrolledStore.attempts) :=
  (C6_start_failures baseQuiz 0 notEnrolledStore).1 rfl

/-- A successful `grade_essay_response` yields an attempt that is exactly
the score recalculation, over the updated responses, of the attempt it
was given — whatever that attempt's status. -/
theorem grade_essay_response_ok (quiz : Quiz) (a : QuizAttempt)
    (rs : List QuestionResponse) (i : Nat) (p : Int)
    (a2 : QuizAttempt) (rs2 : List QuestionResponse)
    (hok : grade_essay_response quiz a rs i p = .ok (a2, rs2)) :
    a2 = calculate_score quiz rs2 a := by
  unfold grade_essay_response at hok
  split at hok
  · exact absurd hok (by simp)
  · rename_i r hr
    by_cases h1 : r.question.questionType ≠ QuestionType.essay
    · rw [if_pos h1] at hok; exact absurd hok (by simp)
    · rw [if_neg h1] at hok
      by_cases h2 : p < 0 ∨ p > (r.question.points : Int)
      · rw [if_pos h2] at hok; exact absurd hok (by simp)
      · rw [if_neg h2] at hok
        simp only [Except.ok.injEq, Prod.mk.injEq] at hok
        obtain ⟨ha, hrs⟩ := hok
        rw [← ha, ← hrs]

/-- A successful `complete_attempt` changes only the status, completion
timestamp, time spent and score fields. -/
theorem complete_attempt_preserves (quiz : Quiz) (rs : List QuestionResponse)
    (now : Nat) (a : QuizAttempt) (r : QuizAttempt)
    (h : complete_attempt quiz rs now a = .ok r) :
    r.quizSettings = a.quizSettings ∧ r.startedAt = a.startedAt ∧
      r.attemptNumber = a.attemptNumber ∧ r.expiresAt = a.expiresAt := by
  unfold complete_attempt at h
  split at h
  · cases hs : a.startedAt <;> rw [hs] at h <;>
      simp only [Except.ok.injEq] at h <;> rw [← h] <;>
      simp [calculate_score_eq]
  · exact absurd h (by simp)

/-- Claim C7, counterexample: `grade_essay_response` does mutate a
completed attempt.  Grading the completed attempt's 5-point essay with
full points flips its stored `score_points` from 0 to 5 and `passed`
from false to true, while the status stays `completed`. -/
theorem C7_counterexample :
    completedEssayAttempt.status = .completed ∧
    (grade_essay_response baseQuiz completedEssayAttempt [essayResponse0] 0 5).toOption.map
        (fun p => (p.1.status, p.1.scorePoints, p.1.passed))
      = some (.completed, 5, true) ∧
    (completedEssayAttempt.scorePoints, completedEssayAttempt.passed) ≠
      (5, true) := by
  refine ⟨rfl, ?_, by decide⟩
  norm_num [grade_essay_response, essayResponse0, essayQ5, calculate_score_eq,
    pctOf, totalOf, earnedOf, Except.toOption, completedEssayAttempt,
    newAttempt, baseQuiz]

/-- Claim C7 (amended): the attempt lifecycle operations reject terminal
attempts unchanged (`complete_attempt` and `start_attempt` fail, the
expiry sweep of `start_quiz_attempt` leaves them in place), but essay
grading is an exception: it recalculates and persists a completed
attempt's `score_points`, `score_percentage` and `passed`, leaving every
other stored field (status, attempt number, timestamps, settings)
unchanged. -/
theorem C7_terminal_attempts (quiz : Quiz) (rs : List QuestionResponse)
    (now : Nat) (a : QuizAttempt)
    (h : a.status = .completed ∨ a.status = .abandoned) :
    complete_attempt quiz rs now a =
      .error "Cannot complete attempt in current status" ∧
    start_attempt quiz now a = .error "Attempt already started" ∧
    (∀ l, a ∈ l → a ∈ expireFirstInProgress l) ∧
    (∀ i p a2 rs2, grade_essay_response quiz a rs i p = .ok (a2, rs2) →
      a2.status = a.status ∧
      a2.attemptNumber = a.attemptNumber ∧
      a2.startedAt = a.startedAt ∧
      a2.completedAt = a.completedAt ∧
      a2.timeSpentSeconds = a.timeSpentSeconds ∧
      a2.expiresAt = a.expiresAt ∧
      a2.timeLimitMinutes = a.timeLimitMinutes ∧
      a2.quizSettings = a.quizSettings) := by
  have hni : a.status ≠ .inProgress := by rcases h with h | h <;> simp [h]
  have hnt : a.status ≠ .timeExpired := by rcases h with h | h <;> simp [h]
  have hns : a.status ≠ .notStarted := by rcases h with h | h <;> simp [h]
  refine ⟨by simp [complete_attempt, hni, hnt], by simp [start_attempt, hns],
    ?_, ?_⟩
  · intro l hl
    induction l with
    | nil => exact absurd hl (by simp)
    | cons b l ih =>
        rcases List.mem_cons.mp hl with hbq | hl2
        · subst hbq
          simp [expireFirstInProgress, hni]
        · show a ∈ expireFirstInProgress (b :: l)
          simp only [expireFirstInProgress]
          by_cases hb : b.status = .inProgress
          · rw [if_pos hb]
            exact List.mem_cons_of_mem _ hl2
          · rw [if_neg hb]
            exact List.mem_cons_of_mem _ (ih hl2)
  · intro i p a2 rs2 hok
    have := grade_essay_response_ok quiz a rs i p a2 rs2 hok
    subst this
    simp [calculate_score_eq]

/-- Witness for C7: the completed concrete attempt is rejected by both
lifecycle operations. -/
theorem C7_witness :
    complete_attempt baseQuiz [] 500 completedEssayAttempt =
      .error "Cannot complete attempt in current status" ∧
    start_attempt baseQuiz 500 completedEssayAttempt =
      .error "Attempt already started" :=
  ⟨(C7_terminal_attempts baseQuiz [] 500 completedEssayAttempt
      (Or.inl rfl)).1,
   (C7_terminal_attempts baseQuiz [] 500 completedEssayAttempt
      (Or.inl rfl)).2.1⟩

/-- Claim C8, counterexample: the snapshot taken at attempt start does
not cover all six behavioral flags — `require_completion` is absent from
the stored `quiz_settings` even when the quiz sets it. -/
theorem C8_counterexample :
    requireCompletionQuiz.requireCompletion = true ∧
    (start_attempt requireCompletionQuiz 5 (newAttempt 1)).toOption.map
        (fun a => a.quizSettings.lookup "require_completion")
      = some none :=
  ⟨rfl, rfl⟩

/-- Claim C8 (amended): at attempt start, `quiz_settings` is set to a
snapshot of five of the quiz's behavioral flags — `shuffle_questions`,
`shuffle_answers`, `show_correct_answers`, `show_score_immediately`,
`allow_review`, but not `require_completion` — and no later lifecycle
operation modifies the stored snapshot, so later edits to the quiz's
flags do not change the stored `quiz_settings` of an in-flight
attempt. -/
theorem C8_settings_snapshot (quiz : Quiz) (now : Nat) (a : QuizAttempt)
    (h : a.status = .notStarted) :
    ∀ r, start_attempt quiz now a = .ok r →
      r.quizSettings = settingsSnapshot quiz ∧
      r.quizSettings.lookup "shuffle_questions" = some quiz.shuffleQuestions ∧
      r.quizSettings.lookup "shuffle_answers" = some quiz.shuffleAnswers ∧
      r.quizSettings.lookup "show_correct_answers" = some quiz.showCorrectAnswers ∧
      r.quizSettings.lookup "show_score_immediately" = some quiz.showScoreImmediately ∧
      r.quizSettings.lookup "allow_review" = some quiz.allowReview ∧
      r.quizSettings.lookup "require_completion" = none ∧
      (∀ quiz2 rs now2 r2, complete_attempt quiz2 rs now2 r = .ok r2 →
        r2.quizSettings = r.quizSettings) ∧
      (∀ quiz2 rs i p a2 rs2,
        grade_essay_response quiz2 r rs i p = .ok (a2, rs2) →
        a2.quizSettings = r.quizSettings) := by
  intro r hr
  rw [start_attempt_ok quiz now a h] at hr
  simp only [Except.ok.injEq] at hr
  subst hr
  refine ⟨rfl, rfl, rfl, rfl, rfl, rfl, rfl, ?_, ?_⟩
  · intro quiz2 rs now2 r2 h2
    exact (complete_attempt_preserves quiz2 rs now2 _ r2 h2).1
  · intro quiz2 rs i p a2 rs2 h2
    rw [grade_essay_response_ok quiz2 _ rs i p a2 rs2 h2]
    simp [calculate_score_eq]

/-- Witness for C8: the started attempt on the concrete quiz with
`require_completion = True` carries the five-flag snapshot and no
`require_completion` key. -/
theorem C8_witness :
    startedRC.quizSettings.lookup "require_completion" = none ∧
    startedRC.quizSettings.lookup "shuffle_questions" =
      some requireCompletionQuiz.shuffleQuestions :=
  ⟨(C8_settings_snapshot requireCompletionQuiz 5 (newAttempt 1) rfl
      startedRC rfl).2.2.2.2.2.2.1,
   (C8_settings_snapshot requireCompletionQuiz 5 (newAttempt 1) rfl
      startedRC rfl).2.1⟩

/-- Claim C9, counterexample: removing a question does not recompute
`total_points` — the `Question` model overrides `save` but not `delete`.
After deleting the only (5-point) question, `total_points` is still 5
while the questions' points now sum to 0. -/
theorem C9_counterexample :
    quizWithQ5.totalPoints = 5 ∧
    (question_delete quizWithQ5 0).totalPoints = 5 ∧
    ((question_delete quizWithQ5 0).questions.map
        (fun q => q.points)).sum = 0 :=
  ⟨rfl, rfl, rfl⟩

/-- Claim C9 (amended): after a question is added or modified (any
`Question.save`), the quiz's `total_points` equals the sum of the points
of its current questions; question removal, however, leaves
`total_points` stale. -/
theorem C9_total_points_on_save (quiz : Quiz) (q : Question) (i : Nat) :
    (question_save_new quiz q).totalPoints =
      ((question_save_new quiz q).questions.map (fun p => p.points)).sum ∧
    (question_save_update quiz i q).totalPoints =
      ((question_save_update quiz i q).questions.map (fun p => p.points)).sum := by
  constructor <;>
    simp [question_save_new, question_save_update, calculate_total_points]

/-- Claim C10 (confirmed): for a `true_false` question,
`evaluate_response` compares the first correct-flagged answer with the
first selected answer (Django instance equality, i.e. by primary key);
when the question has no correct-flagged answer and nothing was
selected, both sides are `None`, so `is_correct` becomes true and
`points_earned` is the question's full point value. -/
theorem C10_true_false_eval (r : QuestionResponse)
    (h : r.question.questionType = .trueFalse) :
    ((evaluate_response r).isCorrect =
      ((r.question.answers.filter (fun (a : Answer) => a.isCorrect)).head? ==
        r.selectedAnswers.head?)) ∧
    ((r.question.answers.filter (fun (a : Answer) => a.isCorrect)) = [] →
      r.selectedAnswers = [] →
      (evaluate_response r).isCorrect = true ∧
      (evaluate_response r).pointsEarned = r.question.points) := by
  constructor
  · simp [evaluate_response, h]
  · intro h1 h2
    simp [evaluate_response, h, h1, h2]

/-- Witness for C10: the blank response to the 3-point true/false
question with no correct-flagged answer evaluates to correct, earning
the full 3 points. -/
theorem C10_witness :
    (evaluate_response tfBlankResponse).isCorrect = true ∧
    (evaluate_response tfBlankResponse).pointsEarned = 3 :=
  ⟨((C10_true_false_eval tfBlankResponse rfl).2 rfl rfl).1,
   ((C10_true_false_eval tfBlankResponse rfl).2 rfl rfl).2⟩

end Skillora
